import Mathlib

/-!
Shallow embedding of `crash.py` (Route 28 crash watcher).

Conventions of the embedding:
* Python dict fields that are accessed via `.get` / `in`-tests are modelled as
  `Option` fields; a missing key is `none`.
* Timestamps are parsed with `datetime.strptime(s, "%Y-%m-%dT%H:%M:%S.%fZ")`;
  we model the parse as `parseTimestamp : String → Option Nat`, returning the
  number of microseconds since 0001-01-01T00:00:00 UTC (proleptic Gregorian),
  or `none` when CPython `strptime` (or the subsequent `datetime` constructor)
  would raise `ValueError`.  A raised `ValueError` that the Python code does
  not catch is modelled by an `Option`-valued result (`none` = uncaught
  exception) on the function that would raise.
* The geodesic distance computation `geopy.distance.distance(p, q).km` is an
  external library call; it is modelled as an oracle parameter
  `dist : (ℚ × ℚ) → (ℚ × ℚ) → Option ℚ`, where `none` models the
  `ValueError` that the Python code catches, and `some d` the computed
  kilometre value.  Coordinates are modelled as rationals; `timedelta`
  arithmetic (exact integer microseconds in CPython) is modelled exactly on
  integers, abstracting the final float division in `total_seconds()`.
-/

/-- ASCII digit test and value, as used by CPython `_strptime`'s `\d`. -/
def digitVal (c : Char) : Option Nat :=
  if c.isDigit then some (c.toNat - 48) else none

/-- `%Y` in CPython `_strptime`: exactly four digits. -/
def parseYear4 : List Char → Option (Nat × List Char)
  | c1 :: c2 :: c3 :: c4 :: rest =>
    match digitVal c1, digitVal c2, digitVal c3, digitVal c4 with
    | some d1, some d2, some d3, some d4 =>
      some (1000 * d1 + 100 * d2 + 10 * d3 + d4, rest)
    | _, _, _, _ => none
  | _ => none

/-- A one-or-two digit numeric field of `_strptime` (`%m`, `%d`, `%H`, `%M`,
`%S`).  `twoOk` is the value-range of the two-digit alternatives of the
field's regex, `oneOk` the range of its one-digit alternative.  The regex
alternation is greedy; preferring the two-digit parse is equivalent here
because every such field is followed by a non-digit literal. -/
def parseField (twoOk oneOk : Nat → Bool) : List Char → Option (Nat × List Char)
  | [] => none
  | c1 :: rest =>
    match digitVal c1 with
    | none => none
    | some d1 =>
      match rest with
      | c2 :: rest2 =>
        match digitVal c2 with
        | some d2 =>
          if twoOk (10 * d1 + d2) then some (10 * d1 + d2, rest2)
          else if oneOk d1 then some (d1, rest) else none
        | none => if oneOk d1 then some (d1, rest) else none
      | [] => if oneOk d1 then some (d1, []) else none

/-- A literal character of the format string; `strptime` compiles its regex
with `re.IGNORECASE`, so letters match either case. -/
def parseLit (c : Char) : List Char → Option (List Char)
  | [] => none
  | x :: rest => if x = c ∨ x = c.toLower then some rest else none

/-- `%f`: one to six digits, greedily; CPython pads the digits on the right to
six, i.e. scales the value to microseconds. -/
def parseFrac (fuel : Nat) (acc : Nat) (count : Nat) :
    List Char → Option (Nat × Nat × List Char)
  | [] => if count = 0 then none else some (acc, count, [])
  | s@(c :: rest) =>
    match fuel with
    | 0 => if count = 0 then none else some (acc, count, s)
    | fuel + 1 =>
      match digitVal c with
      | some d => parseFrac fuel (10 * acc + d) (count + 1) rest
      | none => if count = 0 then none else some (acc, count, s)

/-- Leap year in the proleptic Gregorian calendar (as `datetime`). -/
def isLeap (y : Nat) : Bool :=
  y % 4 = 0 ∧ (y % 100 ≠ 0 ∨ y % 400 = 0)

/-- Days in month `m` (1-12) of year `y`. -/
def daysInMonth (y m : Nat) : Nat :=
  if m = 2 then (if isLeap y then 29 else 28)
  else if m = 4 ∨ m = 6 ∨ m = 9 ∨ m = 11 then 30
  else 31

/-- Days in the months strictly before month `m` of year `y`. -/
def daysBeforeMonth (y m : Nat) : Nat :=
  ((List.range (m - 1)).map (fun i => daysInMonth y (i + 1))).sum

/-- Days from 0001-01-01 to the given proleptic Gregorian date (`y ≥ 1`),
i.e. `datetime.toordinal() - 1`. -/
def daysFromCivil (y m d : Nat) : Nat :=
  365 * (y - 1) + ((y - 1) / 4 - (y - 1) / 100) + (y - 1) / 400 +
    daysBeforeMonth y m + (d - 1)

def usPerSecond : Nat := 1000000
def usPerMinute : Nat := 60 * usPerSecond
def usPerHour : Nat := 60 * usPerMinute
def usPerDay : Nat := 24 * usPerHour

/-- Model of `datetime.strptime(s, "%Y-%m-%dT%H:%M:%S.%fZ")` followed by the
`datetime` constructor's range validation, returning microseconds since
0001-01-01T00:00:00 (UTC), or `none` where CPython raises `ValueError`
(format mismatch, trailing data, year 0, impossible day-of-month, or a
leap-second value 60/61 which the regex admits but `datetime` rejects). -/
def parseTimestamp (s : String) : Option Nat :=
  match parseYear4 s.toList with
  | none => none
  | some (y, r1) =>
    match parseLit '-' r1 with
    | none => none
    | some r2 =>
      match parseField (fun v => 1 ≤ v ∧ v ≤ 12) (fun v => 1 ≤ v ∧ v ≤ 9) r2 with
      | none => none
      | some (mo, r3) =>
        match parseLit '-' r3 with
        | none => none
        | some r4 =>
          match parseField (fun v => 1 ≤ v ∧ v ≤ 31) (fun v => 1 ≤ v ∧ v ≤ 9) r4 with
          | none => none
          | some (d, r5) =>
            match parseLit 'T' r5 with
            | none => none
            | some r6 =>
              match parseField (fun v => v ≤ 23) (fun _ => true) r6 with
              | none => none
              | some (h, r7) =>
                match parseLit ':' r7 with
                | none => none
                | some r8 =>
                  match parseField (fun v => v ≤ 59) (fun _ => true) r8 with
                  | none => none
                  | some (mi, r9) =>
                    match parseLit ':' r9 with
                    | none => none
                    | some r10 =>
                      match parseField (fun v => v ≤ 61) (fun _ => true) r10 with
                      | none => none
                      | some (sec, r11) =>
                        match parseLit '.' r11 with
                        | none => none
                        | some r12 =>
                          match parseFrac 6 0 0 r12 with
                          | none => none
                          | some (frac, count, r13) =>
                            match parseLit 'Z' r13 with
                            | none => none
                            | some r14 =>
                              if r14 = [] ∧ 1 ≤ y ∧ d ≤ daysInMonth y mo ∧ sec ≤ 59 then
                                some (daysFromCivil y mo d * usPerDay +
                                  h * usPerHour + mi * usPerMinute +
                                  sec * usPerSecond + frac * 10 ^ (6 - count))
                              else none

/-- Configuration constants of `crash.py`. -/
def PURGE_THRESHOLD_HOURS : Nat := 24

def DUPLICATE_DISTANCE_KM : ℚ := 1

def DUPLICATE_TIME_MINUTES : Nat := 45

def MAX_RECENT_PROMPTS : Nat := 12

/-- Microsecond form of the purge threshold. -/
def purgeThresholdUs : Int := PURGE_THRESHOLD_HOURS * usPerHour

/-- A persisted history entry (`seen_crashes.json`): a Python dict whose keys
`alert_id`, `publish_datetime_utc`, `lat`, `lon` may individually be absent. -/
structure SeenCrash where
  alert_id : Option String
  publish_datetime_utc : Option String
  lat : Option ℚ
  lon : Option ℚ
  deriving DecidableEq, Repr

/-- An incident from the feed.  `latitude` / `longitude` are accessed with
`alert["latitude"]` (never absent on the paths modelled), the other fields
via `alert.get`. -/
structure Alert where
  alert_id : Option String
  type : Option String
  street : Option String
  latitude : ℚ
  longitude : ℚ
  publish_datetime_utc : Option String
  deriving DecidableEq, Repr

/-- The `seen`-entry appended by `check_route_28` after a successful post. -/
def mkSeenEntry (a : Alert) : SeenCrash :=
  { alert_id := a.alert_id
    publish_datetime_utc := a.publish_datetime_utc
    lat := some a.latitude
    lon := some a.longitude }

/-- Whether `purge_old_crashes` keeps an entry: its timestamp parses and is at
or after `now − PURGE_THRESHOLD_HOURS`.  A missing key (`KeyError`) or a
parse failure (`ValueError`) is caught and the entry dropped. -/
def purgeKeep (now : Int) (c : SeenCrash) : Bool :=
  match c.publish_datetime_utc with
  | none => false
  | some s =>
    match parseTimestamp s with
    | none => false
    | some t => now - purgeThresholdUs ≤ (t : Int)

/-- `purge_old_crashes` (crash.py lines 159-182): keep exactly the entries
whose parsed timestamp is within the purge window of `now`. -/
def purge_old_crashes (now : Int) (seen_data_list : List SeenCrash) : List SeenCrash :=
  seen_data_list.filter (purgeKeep now)

/-- `abs((new_time - seen_time).total_seconds()) / 60 <= DUPLICATE_TIME_MINUTES`,
computed exactly on microseconds. -/
def withinDupWindow (t1 t2 : Nat) : Bool :=
  ((t1 : Int) - (t2 : Int)).natAbs ≤ DUPLICATE_TIME_MINUTES * usPerMinute

/-- The geodesic-distance oracle: `geopy.distance.distance(p, q).km`, with
`none` standing for a raised `ValueError`. -/
def DistOracle : Type := (ℚ × ℚ) → (ℚ × ℚ) → Option ℚ

/-- One iteration of the `is_duplicate_incident` loop body, as the predicate
on a history entry that makes the function return `True` at that entry:
the entry carries `lat`, `lon`, `publish_datetime_utc`; the parsed times are
within `DUPLICATE_TIME_MINUTES`; and the distance computation succeeds with a
value strictly below `DUPLICATE_DISTANCE_KM`. -/
def entryMatches (dist : DistOracle) (newTime : Nat) (a : Alert) (c : SeenCrash) : Bool :=
  match c.lat, c.lon, c.publish_datetime_utc with
  | some la, some lo, some ts =>
    match parseTimestamp ts with
    | none => false
    | some seenTime =>
      withinDupWindow newTime seenTime &&
        (match dist (a.latitude, a.longitude) (la, lo) with
         | some d => decide (d < DUPLICATE_DISTANCE_KM)
         | none => false)
  | _, _, _ => false

/-- The loop of `is_duplicate_incident` (crash.py lines 252-274) over the
history list.  `none` models an uncaught `ValueError` from `strptime` on an
entry that has all three of `lat`/`lon`/`publish_datetime_utc` but a
malformed timestamp string. -/
def dupLoop (dist : DistOracle) (newTime : Nat) (a : Alert) :
    List SeenCrash → Option Bool
  | [] => some false
  | c :: rest =>
    match c.lat, c.lon, c.publish_datetime_utc with
    | some la, some lo, some ts =>
      match parseTimestamp ts with
      | none => none
      | some seenTime =>
        if withinDupWindow newTime seenTime then
          match dist (a.latitude, a.longitude) (la, lo) with
          | some d =>
            if d < DUPLICATE_DISTANCE_KM then some true
            else dupLoop dist newTime a rest
          | none => dupLoop dist newTime a rest
        else dupLoop dist newTime a rest
    | _, _, _ => dupLoop dist newTime a rest

/-- `is_duplicate_incident` (crash.py lines 240-274).  A missing
`publish_datetime_utc` on the new alert fails open (`some false`); a present
but unparseable one raises `ValueError` (`none`). -/
def is_duplicate_incident (dist : DistOracle) (new_alert : Alert)
    (recent_crashes : List SeenCrash) : Option Bool :=
  match new_alert.publish_datetime_utc with
  | none => some false
  | some s =>
    match parseTimestamp s with
    | none => none
    | some newTime => dupLoop dist newTime new_alert recent_crashes

/-- A word character for Python's `\b` (ASCII inputs): `[A-Za-z0-9_]`. -/
def wordChar (c : Char) : Bool :=
  c.isAlpha || c.isDigit || c = '_'

/-- Drop `p` as an exact prefix of `s`, or fail. -/
def dropExact : List Char → List Char → Option (List Char)
  | [], s => some s
  | _, [] => none
  | p :: ps, c :: cs => if p = c then dropExact ps cs else none

/-- The designator alternatives of the route regex, in pattern order. -/
def routeDesignators : List (List Char) :=
  [['R','O','U','T','E'], ['R','T'], ['U','S'],
   ['S','T','A','T','E',' ','R','O','U','T','E'], ['P','A']]

/-- After the designator and optional separator: `28\b`. -/
def after28 : List Char → Bool
  | '2' :: '8' :: rest =>
    match rest with
    | [] => true
    | c :: _ => !wordChar c
  | _ => false

/-- A match of `(ROUTE|RT|US|STATE ROUTE|PA)[ -]?28\b` starting at this
position of the (already upper-cased) text, with `prevIsWord` telling whether
the preceding character is a word character (for the leading `\b`). -/
def matchAtPos (prevIsWord : Bool) (s : List Char) : Bool :=
  !prevIsWord &&
    routeDesignators.any (fun d =>
      match dropExact d s with
      | none => false
      | some rest =>
        after28 rest ||
          (match rest with
           | c :: t => (c = ' ' ∨ c = '-') && after28 t
           | [] => false))

/-- Scan all start positions, threading the previous character's word-status. -/
def scanPositions (prevIsWord : Bool) (s : List Char) : Bool :=
  matchAtPos prevIsWord s ||
    match s with
    | [] => false
    | c :: t => scanPositions (wordChar c) t

/-- `re.search(r"\b(ROUTE|RT|US|STATE ROUTE|PA)[ -]?28\b", street, re.IGNORECASE)`
as a Boolean: the case-insensitivity is realised by matching on the
upper-cased text (ASCII). -/
def route28RegexMatch (street : String) : Bool :=
  scanPositions false (street.toList.map Char.toUpper)

/-- Python's substring test `needle in hay` on character lists. -/
def containsSub (hay needle : List Char) : Bool :=
  match hay with
  | [] => needle.isEmpty
  | _ :: t => needle.isPrefixOf hay || containsSub t needle

/-- Python's substring test on strings. -/
def containsStr (hay needle : String) : Bool :=
  containsSub hay.toList needle.toList

/-- The street-label classification of `check_route_28` (crash.py lines
835-849): designator-regex match, or bare "28" with the five hard-coded
decade/hundred exclusions; and no "BUS" substring (case-insensitive). -/
def classifyStreet (street : String) : Bool :=
  (route28RegexMatch street ||
    (containsStr street "28" &&
      !containsStr street "228" &&
      !containsStr street "128" &&
      !containsStr street "328" &&
      !containsStr street "428" &&
      !containsStr street "528")) &&
  !containsSub (street.toList.map Char.toUpper) ['B', 'U', 'S']

/-- `add_prompt_to_history` (crash.py lines 122-129): remove an existing
occurrence, prepend, truncate to `MAX_RECENT_PROMPTS`.  `List.erase` removes
the first occurrence, as `list.remove` does. -/
def add_prompt_to_history (new_prompt : String) (prompts_list : List String) :
    List String :=
  (new_prompt :: prompts_list.erase new_prompt).take MAX_RECENT_PROMPTS

/-- The prompt-choice oracle, modelling `random.choice`. -/
def ChooseOracle : Type := List String → String

/-- The available-prompt computation of `format_alert` (crash.py lines
359-364): the pool filtered by the recent list, falling back to the full pool
when the filter is empty. -/
def availablePrompts (pool recent : List String) : List String :=
  let available := pool.filter (fun p => p ∉ recent)
  if available.isEmpty then pool else available

/-- The prompt selection of `format_alert`: `random.choice` over the
available prompts, with the choice itself an oracle. -/
def selectPrompt (choose : ChooseOracle) (pool recent : List String) : String :=
  choose (availablePrompts pool recent)

/-- Python truthiness of an optional string: `None` and `""` are falsy. -/
def strPresent : Option String → Option String
  | none => none
  | some s => if s = "" then none else some s

/-- A history entry has all four required keys (`all(k in crash for k in
["alert_id", "publish_datetime_utc", "lat", "lon"])`, crash.py line 798;
presence only, truthiness is not checked there). -/
def hasAllFields (c : SeenCrash) : Bool :=
  c.alert_id.isSome && c.publish_datetime_utc.isSome && c.lat.isSome && c.lon.isSome

/-- The mutable per-run state threaded through the alert loop of
`check_route_28`: the in-memory history, the recent-prompt list, the monthly
counter (the net effect of the load/increment/save round trips of
`increment_monthly_counter`), and the ids already processed this run. -/
structure RunState where
  seen : List SeenCrash
  prompts : List String
  counter : Nat
  processed : List String
  deriving DecidableEq, Repr

/-- The per-run oracles standing for the external collaborators: geodesic
distance, post success (`post_to_social_media`), and `random.choice`. -/
structure Oracles where
  dist : DistOracle
  post : Alert → Bool
  choose : ChooseOracle

/-- The body of the alert loop of `check_route_28` (crash.py lines 823-903)
for a single alert.  `none` propagates an uncaught `ValueError` from
`is_duplicate_incident`. -/
def processAlert (o : Oracles) (pool : List String) (st : RunState) (a : Alert) :
    Option RunState :=
  match strPresent a.alert_id, strPresent a.publish_datetime_utc with
  | some id, some ts =>
    if a.type = some "ACCIDENT" then
      let street := (a.street.getD "")
      if classifyStreet street then
        if id ∈ st.processed then some st
        else
          match is_duplicate_incident o.dist a st.seen with
          | none => none
          | some true => some { st with processed := id :: st.processed }
          | some false =>
            let chosen := selectPrompt o.choose pool st.prompts
            if o.post a then
              some { seen := st.seen ++ [{ alert_id := some id,
                                           publish_datetime_utc := some ts,
                                           lat := some a.latitude,
                                           lon := some a.longitude }]
                     prompts := add_prompt_to_history chosen st.prompts
                     counter := st.counter + 1
                     processed := id :: st.processed }
            else some { st with processed := id :: st.processed }
      else some st
    else some st
  | _, _ => some st

/-- The alert loop of `check_route_28` over a batch, threading the state. -/
def processAlerts (o : Oracles) (pool : List String) :
    List Alert → RunState → Option RunState
  | [], st => some st
  | a :: rest, st =>
    match processAlert o pool st a with
    | none => none
    | some st1 => processAlerts o pool rest st1

/-- Set-equality of two entry lists, as Python's comparison of the two
`{frozenset(d.items()) for d in ...}` sets (crash.py lines 913-914):
mutual membership, order- and multiplicity-insensitive. -/
def sameSet (l1 l2 : List SeenCrash) : Bool :=
  l1.all (fun c => c ∈ l2) && l2.all (fun c => c ∈ l1)

/-- `check_route_28` (crash.py lines 793-922) for one bounding box, with the
feed batch, clock and file contents as inputs: filter malformed loaded
entries, purge, process the batch, and decide whether the ledger file is
rewritten.  Returns the final state and the write flag, or `none` when the
run dies on an uncaught exception. -/
def checkRoute28Run (o : Oracles) (pool : List String) (now : Int)
    (loaded : List SeenCrash) (alerts : List Alert)
    (prompts0 : List String) (counter0 : Nat) : Option (RunState × Bool) :=
  let clean := loaded.filter hasAllFields
  let purged := purge_old_crashes now clean
  match processAlerts o pool alerts
      { seen := purged, prompts := prompts0, counter := counter0, processed := [] } with
  | none => none
  | some st => some (st, !sameSet clean st.seen)

/-- A calendar date, as `datetime.date`. -/
structure Date where
  year : Nat
  month : Nat
  day : Nat
  deriving DecidableEq, Repr

/-- The day after, in the proleptic Gregorian calendar. -/
def nextDay (d : Date) : Date :=
  if d.day < daysInMonth d.year d.month then ⟨d.year, d.month, d.day + 1⟩
  else if d.month < 12 then ⟨d.year, d.month + 1, 1⟩
  else ⟨d.year + 1, 1, 1⟩

/-- The day before, in the proleptic Gregorian calendar. -/
def prevDay (d : Date) : Date :=
  if 1 < d.day then ⟨d.year, d.month, d.day - 1⟩
  else if 1 < d.month then ⟨d.year, d.month - 1, daysInMonth d.year (d.month - 1)⟩
  else ⟨d.year - 1, 12, 31⟩

/-- `date + timedelta(days=n)`. -/
def addDays : Date → Nat → Date
  | d, 0 => d
  | d, n + 1 => addDays (nextDay d) n

/-- `date - timedelta(days=n)`. -/
def subDays : Date → Nat → Date
  | d, 0 => d
  | d, n + 1 => subDays (prevDay d) n

/-- A local wall-clock instant: a date plus the time of day in microseconds,
as the `datetime.now()` value used by `handle_monthly_reset_and_report`. -/
structure DateTime where
  date : Date
  todUs : Nat
  deriving DecidableEq, Repr

/-- The persisted monthly counter state (`monthly_crash_data_route28.json`):
the count and the stored last-reset date (serialised as `%Y-%m-%d`). -/
structure MonthlyData where
  current_month_crashes : Nat
  last_reset_date : Date
  deriving DecidableEq, Repr

/-- `current_date.replace(day=28) + timedelta(days=4)` followed by
`- timedelta(days=next_month.day)`: the last day of the current month. -/
def lastDayOfCurrentMonth (today : Date) : Date :=
  let next_month := addDays ⟨today.year, today.month, 28⟩ 4
  subDays next_month next_month.day

/-- The 12:59 local-time cutoff of the end-of-month trigger, in microseconds
of the day (`current_date >= current_date.replace(hour=12, minute=59, ...)`
compares instants on the same date). -/
def monthlyCutoffUs : Nat := (12 * 60 + 59) * usPerMinute

/-- The trigger condition of `handle_monthly_reset_and_report` (crash.py
lines 744-752): end-of-month at or after the cutoff with a month change, or
the first of a new month. -/
def monthlyTrigger (now : DateTime) (last_reset : Date) : Bool :=
  (now.date.day = (lastDayOfCurrentMonth now.date).day &&
     monthlyCutoffUs ≤ now.todUs &&
     now.date.month ≠ last_reset.month) ||
  (now.date.day = 1 && now.date.month ≠ last_reset.month)

/-- `handle_monthly_reset_and_report` (crash.py lines 727-790), with the post
outcome as an oracle: on trigger and post success the counter is zeroed and
the stored date set to today; on post failure, or without trigger, the data
is unchanged. -/
def handle_monthly_reset_and_report (post_successful : Bool) (now : DateTime)
    (data : MonthlyData) : MonthlyData :=
  if monthlyTrigger now data.last_reset_date then
    if post_successful then
      { current_month_crashes := 0, last_reset_date := now.date }
    else data
  else data

/-- The digits that can precede "28" in a three-digit decade/hundred
collision number 128..928. -/
def decadeDigits : List Char := ['1', '2', '3', '4', '5', '6', '7', '8', '9']

/-- The leading digits of the five collision numbers that crash.py actually
excludes: 128, 228, 328, 428, 528. -/
def excludedDigits : List Char := ['1', '2', '3', '4', '5']

/-- The occurrence of "28" starting at index `i` lies inside a collision
number with leading digit from `digs`: it is immediately preceded by such a
digit. -/
def occInsideDigits (digs cs : List Char) : Nat → Bool
  | 0 => false
  | j + 1 =>
    match cs[j]? with
    | some c => decide (c ∈ digs)
    | none => false

/-- Every occurrence of "28" in the label lies inside a collision number
with leading digit from `digs`. -/
def onlyInsideCollisions (digs : List Char) (street : String) : Bool :=
  (List.range street.toList.length).all fun i =>
    !(['2', '8'].isPrefixOf (street.toList.drop i)) ||
      occInsideDigits digs street.toList i

/-- One selection step of the prompt rotator: select a prompt for the current
recent list, then record it (`format_alert` followed by
`add_prompt_to_history`, as performed on every successful post). -/
def rotateStep (choose : ChooseOracle) (pool recent : List String) : List String :=
  add_prompt_to_history (selectPrompt choose pool recent) recent

/-- The recent-prompts list after `n` consecutive selections from `recent0`. -/
def recentSeq (choose : ChooseOracle) (pool recent0 : List String) : Nat → List String
  | 0 => recent0
  | n + 1 => rotateStep choose pool (recentSeq choose pool recent0 n)

/-- The caption selected at step `n` (the `n`-th consecutive selection). -/
def selSeq (choose : ChooseOracle) (pool recent0 : List String) (n : Nat) : String :=
  selectPrompt choose pool (recentSeq choose pool recent0 n)

/-- The precondition under which `is_duplicate_incident` cannot raise on a
history entry: whenever the entry carries all three of `lat`, `lon`,
`publish_datetime_utc`, its timestamp string parses. -/
def EntryParses (c : SeenCrash) : Prop :=
  ∀ la lo ts, c.lat = some la → c.lon = some lo →
    c.publish_datetime_utc = some ts → (parseTimestamp ts).isSome

/-- Helper lemmas and the claim theorems follow. -/

theorem dupLoop_eq_any (dist : DistOracle) (nt : Nat) (a : Alert) :
    ∀ l : List SeenCrash, (∀ c ∈ l, EntryParses c) →
      dupLoop dist nt a l = some (l.any (entryMatches dist nt a)) := by
  intro l
  induction l with
  | nil => intro _; simp [dupLoop]
  | cons c rest ih =>
    intro h
    have hrest := ih (fun x hx => h x (List.mem_cons_of_mem _ hx))
    have hc := h c (List.mem_cons_self _ _)
    obtain ⟨aid, ots, ola, olo⟩ := c
    cases ola with
    | none => simpa [dupLoop, entryMatches] using hrest
    | some la =>
      cases olo with
      | none => simpa [dupLoop, entryMatches] using hrest
      | some lo =>
        cases ots with
        | none => simpa [dupLoop, entryMatches] using hrest
        | some ts =>
          obtain ⟨st, hst⟩ := Option.isSome_iff_exists.mp (hc la lo ts rfl rfl rfl)
          cases hw : withinDupWindow nt st with
          | false => simp [dupLoop, entryMatches, hst, hw, hrest]
          | true =>
            cases hd : dist (a.latitude, a.longitude) (la, lo) with
            | none => simp [dupLoop, entryMatches, hst, hw, hd, hrest]
            | some d =>
              by_cases hlt : d < DUPLICATE_DISTANCE_KM
              · simp [dupLoop, entryMatches, hst, hw, hd, hlt]
              · simp [dupLoop, entryMatches, hst, hw, hd, hlt, hrest]

theorem is_duplicate_spec (dist : DistOracle) (a : Alert) (l : List SeenCrash)
    (ts : String) (nt : Nat) (hts : a.publish_datetime_utc = some ts)
    (hnt : parseTimestamp ts = some nt) (h : ∀ c ∈ l, EntryParses c) :
    is_duplicate_incident dist a l = some (l.any (entryMatches dist nt a)) := by
  simp [is_duplicate_incident, hts, hnt, dupLoop_eq_any dist nt a l h]

theorem dupLoop_skip_malformed (dist : DistOracle) (nt : Nat) (a : Alert)
    (c : SeenCrash)
    (h : c.lat = none ∨ c.lon = none ∨ c.publish_datetime_utc = none) :
    ∀ l1 l2 : List SeenCrash,
      dupLoop dist nt a (l1 ++ c :: l2) = dupLoop dist nt a (l1 ++ l2) := by
  intro l1
  induction l1 with
  | nil =>
    intro l2
    obtain ⟨aid, ots, ola, olo⟩ := c
    simp only at h
    cases ola <;> cases olo <;> cases ots <;> simp [dupLoop] <;> simp_all
  | cons x t ih =>
    intro l2
    obtain ⟨xa, xts, xla, xlo⟩ := x
    cases xla with
    | none => simp [dupLoop, ih]
    | some la =>
      cases xlo with
      | none => simp [dupLoop, ih]
      | some lo =>
        cases xts with
        | none => simp [dupLoop, ih]
        | some ts =>
          cases hp : parseTimestamp ts with
          | none => simp [dupLoop, hp]
          | some st =>
            cases hw : withinDupWindow nt st with
            | false => simp [dupLoop, hp, hw, ih]
            | true =>
              cases hd : dist (a.latitude, a.longitude) (la, lo) with
              | none => simp [dupLoop, hp, hw, hd, ih]
              | some d =>
                by_cases hlt : d < DUPLICATE_DISTANCE_KM
                · simp [dupLoop, hp, hw, hd, hlt]
                · simp [dupLoop, hp, hw, hd, hlt, ih]

/-- C9: purge is idempotent: purging twice at the same instant is the same as
purging once. -/
theorem purge_idempotent (now : Int) (history : List SeenCrash) :
    purge_old_crashes now (purge_old_crashes now history) =
      purge_old_crashes now history := by
  simp [purge_old_crashes, List.filter_filter, Bool.and_self]

/-- C4: whenever the monthly trigger fires, a failed report post leaves the
counter and stored last-reset date unchanged, and a successful post zeroes
the counter and sets the last-reset date to the current date. -/
theorem monthly_reset_atomic (now : DateTime) (data : MonthlyData)
    (h : monthlyTrigger now data.last_reset_date = true) :
    handle_monthly_reset_and_report false now data = data ∧
      handle_monthly_reset_and_report true now data =
        { current_month_crashes := 0, last_reset_date := now.date } := by
  constructor <;> simp [handle_monthly_reset_and_report, h]

theorem monthly_reset_atomic_witness :
    monthlyTrigger ⟨⟨2025, 3, 1⟩, 0⟩ ⟨2025, 2, 15⟩ = true ∧
      handle_monthly_reset_and_report false ⟨⟨2025, 3, 1⟩, 0⟩ ⟨7, ⟨2025, 2, 15⟩⟩ =
        ⟨7, ⟨2025, 2, 15⟩⟩ ∧
      handle_monthly_reset_and_report true ⟨⟨2025, 3, 1⟩, 0⟩ ⟨7, ⟨2025, 2, 15⟩⟩ =
        ⟨0, ⟨2025, 3, 1⟩⟩ :=
  ⟨by decide,
    (monthly_reset_atomic ⟨⟨2025, 3, 1⟩, 0⟩ ⟨7, ⟨2025, 2, 15⟩⟩ (by decide)).1,
    (monthly_reset_atomic ⟨⟨2025, 3, 1⟩, 0⟩ ⟨7, ⟨2025, 2, 15⟩⟩ (by decide)).2⟩

/-- C10: the duplicate detector is partial in the timestamp format: a present
but malformed `publish_datetime_utc` raises an uncaught `ValueError`
(modelled as `none`), both on the new incident and on a fully-populated
history entry, while an absent field on the new incident fails open
(`some false`). -/
theorem duplicate_detector_partial_on_timestamps :
    is_duplicate_incident (fun _ _ => some 0)
        ⟨some "n1", some "ACCIDENT", some "ROUTE 28", 0, 0,
          some "2024-01-01T00:00:00Z"⟩ [] = none ∧
      is_duplicate_incident (fun _ _ => some 0)
        ⟨some "n2", some "ACCIDENT", some "ROUTE 28", 0, 0,
          some "0001-01-01T00:00:00.0Z"⟩
        [⟨some "h1", some "not-a-timestamp", some 0, some 0⟩] = none ∧
      is_duplicate_incident (fun _ _ => some 0)
        ⟨some "n3", some "ACCIDENT", some "ROUTE 28", 0, 0, none⟩ [] =
        some false := by
  refine ⟨by decide, by decide, by decide⟩

/-- C6 counterexample: a history entry missing only `alert_id` (but carrying
`lat`, `lon`, `publish_datetime_utc`) is NOT skipped by the duplicate
detector: it alone produces a duplicate verdict. -/
theorem dup_detector_uses_entry_without_alert_id :
    (⟨none, some "0001-01-01T00:10:00.0Z", some 0, some 0⟩ : SeenCrash).alert_id =
        none ∧
      is_duplicate_incident (fun _ _ => some 0)
        ⟨some "n4", some "ACCIDENT", some "ROUTE 28", 0, 0,
          some "0001-01-01T00:00:00.0Z"⟩
        [⟨none, some "0001-01-01T00:10:00.0Z", some 0, some 0⟩] = some true := by
  refine ⟨rfl, by decide⟩

/-- C6 amended: the duplicate detector skips exactly the entries missing one
of `lat`, `lon`, `publish_datetime_utc` (`alert_id` is not checked there;
entries missing it are filtered out at load time instead): removing such an
entry from the history never changes the verdict. -/
theorem dup_detector_skips_malformed (dist : DistOracle) (a : Alert)
    (c : SeenCrash) (l1 l2 : List SeenCrash)
    (h : c.lat = none ∨ c.lon = none ∨ c.publish_datetime_utc = none) :
    is_duplicate_incident dist a (l1 ++ c :: l2) =
      is_duplicate_incident dist a (l1 ++ l2) := by
  unfold is_duplicate_incident
  cases a.publish_datetime_utc with
  | none => rfl
  | some s =>
    cases hp : parseTimestamp s with
    | none => simp [hp]
    | some nt =>
      simp only [hp]
      exact dupLoop_skip_malformed dist nt a c h l1 l2

theorem dup_detector_skips_malformed_witness :
    is_duplicate_incident (fun _ _ => some 0)
        ⟨some "n5", some "ACCIDENT", some "ROUTE 28", 0, 0,
          some "0001-01-01T00:00:00.0Z"⟩
        ([] ++ ⟨some "h2", none, some 0, some 0⟩ :: []) =
      is_duplicate_incident (fun _ _ => some 0)
        ⟨some "n5", some "ACCIDENT", some "ROUTE 28", 0, 0,
          some "0001-01-01T00:00:00.0Z"⟩ ([] ++ []) :=
  dup_detector_skips_malformed (fun _ _ => some 0)
    ⟨some "n5", some "ACCIDENT", some "ROUTE 28", 0, 0,
      some "0001-01-01T00:00:00.0Z"⟩
    ⟨some "h2", none, some 0, some 0⟩ [] [] (Or.inr (Or.inr rfl))

/-- C1: with a parseable timestamp on the new incident and parseable
timestamps throughout the history, `is_duplicate_incident` returns `True`
exactly when some entry carrying `lat`, `lon` and `publish_datetime_utc` is
within `DUPLICATE_TIME_MINUTES` and at a successfully computed distance
strictly below `DUPLICATE_DISTANCE_KM`; a failed distance computation counts
as non-matching, and an empty match yields `False`. -/
theorem is_duplicate_correct (dist : DistOracle) (a : Alert)
    (l : List SeenCrash) (ts : String) (nt : Nat)
    (hts : a.publish_datetime_utc = some ts)
    (hnt : parseTimestamp ts = some nt)
    (h : ∀ c ∈ l, ∀ u, c.publish_datetime_utc = some u →
      (parseTimestamp u).isSome) :
    is_duplicate_incident dist a l = some (l.any (entryMatches dist nt a)) :=
  is_duplicate_spec dist a l ts nt hts hnt
    (fun c hc _ _ u _ _ hu => h c hc u hu)

theorem is_duplicate_correct_witness :
    is_duplicate_incident (fun _ _ => some 0)
      ⟨some "n6", some "ACCIDENT", some "ROUTE 28", 0, 0,
        some "0001-01-01T00:00:00.0Z"⟩
      [⟨some "h3", some "0001-01-01T00:10:00.0Z", some 0, some 0⟩] =
      some true := by
  have h := is_duplicate_correct (fun _ _ => some 0)
    ⟨some "n6", some "ACCIDENT", some "ROUTE 28", 0, 0,
      some "0001-01-01T00:00:00.0Z"⟩
    [⟨some "h3", some "0001-01-01T00:10:00.0Z", some 0, some 0⟩]
    "0001-01-01T00:00:00.0Z" 0 rfl (by decide)
    (by
      intro c hc u hu
      rcases List.mem_singleton.mp hc with rfl
      simp only [Option.some.injEq] at hu
      subst hu
      decide)
  exact h.trans (by decide)

/-- C5 counterexample: a run can write a ledger containing an entry whose
publish timestamp is 26 hours older than the run's purge time: an alert that
the feed delivers with an old timestamp is appended unchecked after a
successful post, and the write flag is set. -/
theorem ledger_can_contain_stale_appended_entry :
    checkRoute28Run ⟨fun _ _ => some 0, fun _ => true, fun l => l.headD ""⟩
        ["p"] 93600000000 [] [⟨some "a1", some "ACCIDENT", some "ROUTE 28",
          0, 0, some "0001-01-01T00:00:00.0Z"⟩] [] 0 =
      some (⟨[⟨some "a1", some "0001-01-01T00:00:00.0Z", some 0, some 0⟩],
        ["p"], 1, ["a1"]⟩, true) ∧
      parseTimestamp "0001-01-01T00:00:00.0Z" = some 0 ∧
      purgeThresholdUs < 93600000000 - 0 := by
  refine ⟨by decide, by decide, by decide⟩

/-- C5 amended: the purge-window invariant holds for the entries surviving
the start-of-run purge — each has a parseable timestamp whose age relative
to the purge time is at most `PURGE_THRESHOLD_HOURS` — but entries appended
during the run carry the feed's publish timestamp unchanged and are not
subject to this bound. -/
theorem purge_survivors_within_window (now : Int) (l : List SeenCrash)
    (c : SeenCrash) (h : c ∈ purge_old_crashes now l) :
    ∃ ts t, c.publish_datetime_utc = some ts ∧ parseTimestamp ts = some t ∧
      now - t ≤ purgeThresholdUs := by
  obtain ⟨-, hk⟩ := List.mem_filter.mp h
  cases hts : c.publish_datetime_utc with
  | none => simp [purgeKeep, hts] at hk
  | some ts =>
    cases hp : parseTimestamp ts with
    | none => simp [purgeKeep, hts, hp] at hk
    | some t =>
      simp only [purgeKeep, hts, hp, decide_eq_true_eq] at hk
      exact ⟨ts, t, rfl, hp, by omega⟩

theorem purge_survivors_within_window_witness :
    ∃ ts t,
      (⟨some "a2", some "0001-01-01T00:00:00.0Z", some 0, some 0⟩ :
          SeenCrash).publish_datetime_utc = some ts ∧
        parseTimestamp ts = some t ∧ (0 : Int) - t ≤ purgeThresholdUs :=
  purge_survivors_within_window 0
    [⟨some "a2", some "0001-01-01T00:00:00.0Z", some 0, some 0⟩]
    ⟨some "a2", some "0001-01-01T00:00:00.0Z", some 0, some 0⟩ (by decide)

theorem sameSet_iff_toFinset (l1 l2 : List SeenCrash) :
    sameSet l1 l2 = true ↔ l1.toFinset = l2.toFinset := by
  simp only [sameSet, Bool.and_eq_true, List.all_eq_true, decide_eq_true_eq,
    Finset.ext_iff, List.mem_toFinset]
  constructor
  · rintro ⟨h1, h2⟩ a
    exact ⟨fun ha => h1 a ha, fun ha => h2 a ha⟩
  · intro h
    exact ⟨fun a ha => (h a).1 ha, fun a ha => (h a).2 ha⟩

/-- C7 counterexample: the loaded file holds one malformed entry (no
`lat`/`lon`); the final content (empty) differs as a set from the loaded
content, yet the write flag stays off — the code compares against the
cleaned (well-formed) subset, not against the loaded content. -/
theorem ledger_write_skipped_despite_loaded_difference :
    checkRoute28Run ⟨fun _ _ => some 0, fun _ => true, fun l => l.headD ""⟩
        ["p"] 0 [⟨some "a3", some "0001-01-01T00:00:00.0Z", none, none⟩]
        [] [] 0 = some (⟨[], [], 0, []⟩, false) ∧
      sameSet [⟨some "a3", some "0001-01-01T00:00:00.0Z", none, none⟩] [] =
        false := by
  refine ⟨by decide, by decide⟩

/-- C7 amended: the ledger is rewritten at end of run iff the
post-purge-and-append content differs, under set-equality over entry
field-sets, from the well-formed subset (entries carrying all four fields)
of the content most recently loaded from the file. -/
theorem ledger_write_iff_differs_from_wellformed_loaded (o : Oracles)
    (pool : List String) (now : Int) (loaded : List SeenCrash)
    (alerts : List Alert) (prompts0 : List String) (counter0 : Nat)
    (st : RunState) (w : Bool)
    (h : checkRoute28Run o pool now loaded alerts prompts0 counter0 =
      some (st, w)) :
    w = true ↔ (loaded.filter hasAllFields).toFinset ≠ st.seen.toFinset := by
  simp only [checkRoute28Run] at h
  cases hq : processAlerts o pool alerts
      { seen := purge_old_crashes now (loaded.filter hasAllFields),
        prompts := prompts0, counter := counter0, processed := [] } with
  | none => rw [hq] at h; cases h
  | some st0 =>
    rw [hq] at h
    simp only [Option.some.injEq, Prod.mk.injEq] at h
    obtain ⟨rfl, rfl⟩ := h
    cases hss : sameSet (loaded.filter hasAllFields) st0.seen with
    | false =>
      simp only [hss, Bool.not_false, true_iff]
      intro heq
      rw [← sameSet_iff_toFinset, hss] at heq
      exact Bool.noConfusion heq
    | true =>
      have heq := (sameSet_iff_toFinset (loaded.filter hasAllFields) st0.seen).mp hss
      simp [hss, heq]

theorem ledger_write_iff_witness :
    (List.filter hasAllFields ([] : List SeenCrash)).toFinset ≠
      ([⟨some "a4", some "0001-01-01T00:00:00.0Z", some 0, some 0⟩] :
          List SeenCrash).toFinset :=
  (ledger_write_iff_differs_from_wellformed_loaded
    ⟨fun _ _ => some 0, fun _ => true, fun l => l.headD ""⟩ ["p"] 0 []
    [⟨some "a4", some "ACCIDENT", some "ROUTE 28", 0, 0,
      some "0001-01-01T00:00:00.0Z"⟩] [] 0
    ⟨[⟨some "a4", some "0001-01-01T00:00:00.0Z", some 0, some 0⟩],
      ["p"], 1, ["a4"]⟩ true (by decide)).mp rfl

/-- C2 counterexample: in the label "628" the target number "28" appears only
inside the decade collision "628" and the designator regex does not match,
yet the classifier treats the incident as a Route 28 incident: only the five
hard-coded collisions 128/228/328/428/528 are excluded. -/
theorem decade_collision_628_classified :
    onlyInsideCollisions decadeDigits "628" = true ∧
      route28RegexMatch "628" = false ∧ classifyStreet "628" = true := by
  refine ⟨by decide, by decide, by decide⟩

theorem containsSub_iff (needle : List Char) :
    ∀ hay : List Char,
      containsSub hay needle = true ↔ ∃ i, needle <+: hay.drop i := by
  intro hay
  induction hay with
  | nil =>
    simp only [containsSub, List.isEmpty_iff, List.drop_nil, List.prefix_nil]
    exact ⟨fun h => ⟨0, h⟩, fun ⟨_, h⟩ => h⟩
  | cons c t ih =>
    simp only [containsSub, Bool.or_eq_true, List.isPrefixOf_iff_prefix, ih]
    constructor
    · rintro (h | ⟨i, hi⟩)
      · exact ⟨0, by simpa using h⟩
      · exact ⟨i + 1, by simpa using hi⟩
    · rintro ⟨i, hi⟩
      cases i with
      | zero => exact Or.inl (by simpa using hi)
      | succ j => exact Or.inr ⟨j, by simpa using hi⟩

/-- C2 amended: if every occurrence of "28" in the label lies inside one of
the five excluded collision numbers 128, 228, 328, 428, 528 and the
designator regex does not match, the classifier returns no match.  (The code
excludes exactly these five superstrings, not arbitrary decade/hundred
collisions: "628", "728", "828", "928" are still classified, as the
counterexample shows.) -/
theorem classify_false_for_excluded_collisions (street : String)
    (honly : onlyInsideCollisions excludedDigits street = true)
    (hregex : route28RegexMatch street = false) :
    classifyStreet street = false := by
  unfold classifyStreet
  rw [hregex]
  cases h28 : containsStr street "28" with
  | false => simp [h28]
  | true =>
    have h28eq : ("28".toList : List Char) = ['2', '8'] := by decide
    obtain ⟨i, hi⟩ := (containsSub_iff "28".toList street.toList).mp h28
    rw [h28eq] at hi
    have hilen : i < street.toList.length := by
      by_contra hge
      push_neg at hge
      rw [List.drop_eq_nil_of_le hge] at hi
      simp [List.prefix_nil] at hi
    have hocc := (List.all_eq_true.mp honly) i (List.mem_range.mpr hilen)
    have hpre : (['2', '8'] : List Char).isPrefixOf (street.toList.drop i) =
        true := List.isPrefixOf_iff_prefix.mpr hi
    simp only [hpre, Bool.not_true, Bool.false_or] at hocc
    have hocc2 : occInsideDigits excludedDigits street.data i = true := hocc
    cases i with
    | zero => simp [occInsideDigits] at hocc2
    | succ j =>
      cases hgj : street.data[j]? with
      | none => simp [occInsideDigits, hgj] at hocc2
      | some ch =>
        simp only [occInsideDigits, hgj, decide_eq_true_eq] at hocc2
        obtain ⟨hjlt, hgetj⟩ := List.getElem?_eq_some.mp hgj
        have hdrop : street.data.drop j = ch :: street.data.drop (j + 1) := by
          rw [List.drop_eq_getElem_cons hjlt, hgetj]
        have hpre3 : ([ch, '2', '8'] : List Char) <+: street.data.drop j := by
          rw [hdrop]
          exact List.cons_prefix_cons.mpr ⟨rfl, hi⟩
        have hcont : containsSub street.data [ch, '2', '8'] = true :=
          (containsSub_iff [ch, '2', '8'] street.data).mpr ⟨j, hpre3⟩
        simp only [excludedDigits, List.mem_cons, List.not_mem_nil,
          or_false] at hocc2
        rcases hocc2 with rfl | rfl | rfl | rfl | rfl
        · simp [h28, show containsStr street "128" = true from hcont]
        · simp [h28, show containsStr street "228" = true from hcont]
        · simp [h28, show containsStr street "328" = true from hcont]
        · simp [h28, show containsStr street "428" = true from hcont]
        · simp [h28, show containsStr street "528" = true from hcont]

theorem classify_false_for_excluded_collisions_witness :
    onlyInsideCollisions excludedDigits "128" = true ∧
      route28RegexMatch "128" = false ∧ classifyStreet "128" = false :=
  ⟨by decide, by decide,
    classify_false_for_excluded_collisions "128" (by decide) (by decide)⟩

/-- C3: within one batch, the history used for duplicate detection includes
the entry appended for an incident accepted earlier in the same batch: with
two classifying accidents close in time and space, the first posts and is
appended, the second is flagged duplicate against that in-memory history and
suppressed, and the counter rises by exactly one. -/
theorem intra_batch_dedup (o : Oracles) (pool : List String)
    (hist : List SeenCrash) (prompts0 : List String) (counter0 : Nat)
    (a1 a2 : Alert) (id1 id2 ts1 ts2 : String) (t1 t2 : Nat) (d : ℚ)
    (Hhist : ∀ c ∈ hist, EntryParses c)
    (h1id : a1.alert_id = some id1) (h1idne : id1 ≠ "")
    (h1ts : a1.publish_datetime_utc = some ts1) (h1tsne : ts1 ≠ "")
    (h1ty : a1.type = some "ACCIDENT")
    (h1cl : classifyStreet (a1.street.getD "") = true)
    (h2id : a2.alert_id = some id2) (h2idne : id2 ≠ "")
    (h2ts : a2.publish_datetime_utc = some ts2) (h2tsne : ts2 ≠ "")
    (h2ty : a2.type = some "ACCIDENT")
    (h2cl : classifyStreet (a2.street.getD "") = true)
    (hne : id2 ≠ id1)
    (hp1 : parseTimestamp ts1 = some t1) (hp2 : parseTimestamp ts2 = some t2)
    (hnew : hist.any (entryMatches o.dist t1 a1) = false)
    (hpost : o.post a1 = true)
    (hwin : withinDupWindow t2 t1 = true)
    (hdist : o.dist (a2.latitude, a2.longitude)
      (a1.latitude, a1.longitude) = some d)
    (hdlt : d < DUPLICATE_DISTANCE_KM) :
    processAlerts o pool [a1, a2]
        { seen := hist, prompts := prompts0, counter := counter0,
          processed := [] } =
      some { seen := hist ++
               [⟨some id1, some ts1, some a1.latitude, some a1.longitude⟩],
             prompts := add_prompt_to_history
               (selectPrompt o.choose pool prompts0) prompts0,
             counter := counter0 + 1,
             processed := [id2, id1] } := by
  have hdup1 : is_duplicate_incident o.dist a1 hist = some false := by
    rw [is_duplicate_spec o.dist a1 hist ts1 t1 h1ts hp1 Hhist, hnew]
  have he1 : EntryParses
      ⟨some id1, some ts1, some a1.latitude, some a1.longitude⟩ := by
    intro la lo ts hla hlo hts
    simp only [Option.some.injEq] at hts
    subst hts
    simp [hp1]
  have Hhist2 : ∀ c ∈ hist ++
      [⟨some id1, some ts1, some a1.latitude, some a1.longitude⟩],
      EntryParses c := by
    intro c hc
    rcases List.mem_append.mp hc with h | h
    · exact Hhist c h
    · rcases List.mem_singleton.mp h with rfl
      exact he1
  have hmatch : entryMatches o.dist t2 a2
      ⟨some id1, some ts1, some a1.latitude, some a1.longitude⟩ = true := by
    simp [entryMatches, hp1, hwin, hdist, hdlt]
  have hdup2 : is_duplicate_incident o.dist a2 (hist ++
      [⟨some id1, some ts1, some a1.latitude, some a1.longitude⟩]) =
      some true := by
    rw [is_duplicate_spec o.dist a2 _ ts2 t2 h2ts hp2 Hhist2]
    simp [List.any_append, hmatch]
  have hstep1 : processAlert o pool
      { seen := hist, prompts := prompts0, counter := counter0,
        processed := [] } a1 =
      some { seen := hist ++
               [⟨some id1, some ts1, some a1.latitude, some a1.longitude⟩],
             prompts := add_prompt_to_history
               (selectPrompt o.choose pool prompts0) prompts0,
             counter := counter0 + 1,
             processed := [id1] } := by
    simp [processAlert, strPresent, h1id, h1idne, h1ts, h1tsne, h1ty, h1cl,
      hdup1, hpost]
  have hstep2 : processAlert o pool
      { seen := hist ++
          [⟨some id1, some ts1, some a1.latitude, some a1.longitude⟩],
        prompts := add_prompt_to_history
          (selectPrompt o.choose pool prompts0) prompts0,
        counter := counter0 + 1, processed := [id1] } a2 =
      some { seen := hist ++
               [⟨some id1, some ts1, some a1.latitude, some a1.longitude⟩],
             prompts := add_prompt_to_history
               (selectPrompt o.choose pool prompts0) prompts0,
             counter := counter0 + 1,
             processed := [id2, id1] } := by
    simp [processAlert, strPresent, h2id, h2idne, h2ts, h2tsne, h2ty, h2cl,
      hdup2, hne]
  simp [processAlerts, hstep1, hstep2]

theorem intra_batch_dedup_witness :
    processAlerts ⟨fun _ _ => some 0, fun _ => true, fun l => l.headD ""⟩
        ["p"]
        [⟨some "a", some "ACCIDENT", some "ROUTE 28", 0, 0,
            some "0001-01-01T00:00:00.0Z"⟩,
          ⟨some "b", some "ACCIDENT", some "ROUTE 28", 0, 0,
            some "0001-01-01T00:10:00.0Z"⟩]
        { seen := [], prompts := [], counter := 0, processed := [] } =
      some { seen := [⟨some "a", some "0001-01-01T00:00:00.0Z",
               some 0, some 0⟩],
             prompts := ["p"], counter := 1, processed := ["b", "a"] } := by
  have h := intra_batch_dedup
    ⟨fun _ _ => some 0, fun _ => true, fun l => l.headD ""⟩ ["p"] [] [] 0
    ⟨some "a", some "ACCIDENT", some "ROUTE 28", 0, 0,
      some "0001-01-01T00:00:00.0Z"⟩
    ⟨some "b", some "ACCIDENT", some "ROUTE 28", 0, 0,
      some "0001-01-01T00:10:00.0Z"⟩
    "a" "b" "0001-01-01T00:00:00.0Z" "0001-01-01T00:10:00.0Z" 0 600000000 0
    (by simp) rfl (by decide) rfl (by decide) rfl (by decide)
    rfl (by decide) rfl (by decide) rfl (by decide) (by decide)
    (by decide) (by decide) rfl rfl (by decide) rfl (by decide)
  exact h.trans (by decide)

theorem availablePrompts_filter_ne_nil (pool recent : List String)
    (hnd : pool.Nodup) (hlen : MAX_RECENT_PROMPTS < pool.length)
    (hrec : recent.length ≤ MAX_RECENT_PROMPTS) :
    pool.filter (fun p => p ∉ recent) ≠ [] := by
  intro hnil
  have hsub : ∀ x ∈ pool, x ∈ recent := by
    intro x hx
    by_contra hxr
    have : x ∈ pool.filter (fun p => p ∉ recent) :=
      List.mem_filter.mpr ⟨hx, by simpa using hxr⟩
    rw [hnil] at this
    exact List.not_mem_nil x this
  have h1 : pool.toFinset.card = pool.length := List.toFinset_card_of_nodup hnd
  have h2 : pool.toFinset ⊆ recent.toFinset := by
    intro x hx
    exact List.mem_toFinset.mpr (hsub x (List.mem_toFinset.mp hx))
  have h3 : recent.toFinset.card ≤ recent.length := List.toFinset_card_le recent
  have := Finset.card_le_card h2
  omega

theorem selectPrompt_not_mem_recent (choose : ChooseOracle)
    (hch : ∀ l : List String, l ≠ [] → choose l ∈ l)
    (pool recent : List String)
    (hav : pool.filter (fun p => p ∉ recent) ≠ []) :
    selectPrompt choose pool recent ∉ recent := by
  have hie : (pool.filter (fun p => p ∉ recent)).isEmpty = false :=
    List.isEmpty_eq_false.mpr hav
  have hsel : selectPrompt choose pool recent ∈
      pool.filter (fun p => p ∉ recent) := by
    unfold selectPrompt availablePrompts
    simp only [hie, Bool.false_eq_true, if_false]
    exact hch _ hav
  have := (List.mem_filter.mp hsel).2
  simpa using this

theorem recentSeq_length_le (choose : ChooseOracle) (pool recent0 : List String)
    (h0 : recent0.length ≤ MAX_RECENT_PROMPTS) :
    ∀ n, (recentSeq choose pool recent0 n).length ≤ MAX_RECENT_PROMPTS := by
  intro n
  induction n with
  | zero => exact h0
  | succ m _ =>
    simp only [recentSeq, rotateStep, add_prompt_to_history]
    exact List.length_take_le _ _

theorem rotateStep_eq_cons_take (choose : ChooseOracle)
    (pool recent : List String)
    (hsel : selectPrompt choose pool recent ∉ recent) :
    rotateStep choose pool recent =
      (selectPrompt choose pool recent :: recent).take MAX_RECENT_PROMPTS := by
  unfold rotateStep add_prompt_to_history
  rw [List.erase_of_not_mem hsel]

theorem recentSeq_getElem (choose : ChooseOracle) (pool recent0 : List String)
    (hch : ∀ l : List String, l ≠ [] → choose l ∈ l) (hnd : pool.Nodup)
    (hlen : MAX_RECENT_PROMPTS < pool.length)
    (h0 : recent0.length ≤ MAX_RECENT_PROMPTS) :
    ∀ k, k < MAX_RECENT_PROMPTS → ∀ n, k ≤ n →
      (recentSeq choose pool recent0 (n + 1))[k]? =
        some (selSeq choose pool recent0 (n - k)) := by
  intro k
  induction k with
  | zero =>
    intro _ n _
    have hsel : selSeq choose pool recent0 n ∉ recentSeq choose pool recent0 n :=
      selectPrompt_not_mem_recent choose hch pool _
        (availablePrompts_filter_ne_nil pool _ hnd hlen
          (recentSeq_length_le choose pool recent0 h0 n))
    have hrs : recentSeq choose pool recent0 (n + 1) =
        (selSeq choose pool recent0 n :: recentSeq choose pool recent0 n).take
          MAX_RECENT_PROMPTS := by
      simp only [recentSeq]
      exact rotateStep_eq_cons_take choose pool _ hsel
    rw [hrs, List.getElem?_take]
    simp [MAX_RECENT_PROMPTS]
  | succ k ih =>
    intro hk12 n hkn
    obtain ⟨m, rfl⟩ : ∃ m, n = m + 1 := ⟨n - 1, by omega⟩
    have hsel : selSeq choose pool recent0 (m + 1) ∉
        recentSeq choose pool recent0 (m + 1) :=
      selectPrompt_not_mem_recent choose hch pool _
        (availablePrompts_filter_ne_nil pool _ hnd hlen
          (recentSeq_length_le choose pool recent0 h0 (m + 1)))
    have hrs : recentSeq choose pool recent0 (m + 1 + 1) =
        (selSeq choose pool recent0 (m + 1) ::
          recentSeq choose pool recent0 (m + 1)).take MAX_RECENT_PROMPTS := by
      simp only [recentSeq]
      exact rotateStep_eq_cons_take choose pool _ hsel
    rw [hrs, List.getElem?_take, if_pos hk12, List.getElem?_cons_succ]
    have harg : m + 1 - (k + 1) = m - k := by omega
    rw [harg]
    exact ih (by omega) m (by omega)

/-- C8: with a choice oracle that picks from its argument list, (a) whenever
the pool minus the recent list is non-empty the selected caption avoids the
recent list, and (b) for a duplicate-free pool larger than
`MAX_RECENT_PROMPTS`, no caption repeats within `MAX_RECENT_PROMPTS`
consecutive selections (which is `min(MAX_RECENT_PROMPTS, poolSize - 1)`
for such a pool). -/
theorem prompt_rotation_no_repeat (choose : ChooseOracle)
    (hch : ∀ l : List String, l ≠ [] → choose l ∈ l)
    (pool recent recent0 : List String) :
    (pool.filter (fun p => p ∉ recent) ≠ [] →
      selectPrompt choose pool recent ∉ recent) ∧
    (pool.Nodup → MAX_RECENT_PROMPTS < pool.length →
      recent0.length ≤ MAX_RECENT_PROMPTS →
      ∀ i j, i < j → j - i ≤ MAX_RECENT_PROMPTS →
        selSeq choose pool recent0 i ≠ selSeq choose pool recent0 j) := by
  constructor
  · intro hav
    exact selectPrompt_not_mem_recent choose hch pool recent hav
  · intro hnd hlen h0 i j hij hw
    obtain ⟨n, rfl⟩ : ∃ n, j = n + 1 := ⟨j - 1, by omega⟩
    have hget := recentSeq_getElem choose pool recent0 hch hnd hlen h0
      (n - i) (by omega) n (by omega)
    have hi : (n - (n - i)) = i := by omega
    rw [hi] at hget
    have hmem : selSeq choose pool recent0 i ∈
        recentSeq choose pool recent0 (n + 1) := List.getElem?_mem hget
    have hsel : selSeq choose pool recent0 (n + 1) ∉
        recentSeq choose pool recent0 (n + 1) :=
      selectPrompt_not_mem_recent choose hch pool _
        (availablePrompts_filter_ne_nil pool _ hnd hlen
          (recentSeq_length_le choose pool recent0 h0 (n + 1)))
    intro heq
    rw [heq] at hmem
    exact hsel hmem

theorem prompt_rotation_no_repeat_witness :
    (selectPrompt (fun l => l.headD "") ["q1", "q2"] ["q1"] ∉ ["q1"]) ∧
      selSeq (fun l => l.headD "")
          ["q1", "q2", "q3", "q4", "q5", "q6", "q7", "q8", "q9", "q10",
            "q11", "q12", "q13"] [] 3 ≠
        selSeq (fun l => l.headD "")
          ["q1", "q2", "q3", "q4", "q5", "q6", "q7", "q8", "q9", "q10",
            "q11", "q12", "q13"] [] 7 := by
  have hch : ∀ l : List String, l ≠ [] → (fun l => l.headD "") l ∈ l := by
    intro l hl
    cases l with
    | nil => exact absurd rfl hl
    | cons a t => exact List.mem_cons_self a t
  refine ⟨?_, ?_⟩
  · exact (prompt_rotation_no_repeat (fun l => l.headD "") hch
      ["q1", "q2"] ["q1"] []).1 (by decide)
  · exact (prompt_rotation_no_repeat (fun l => l.headD "") hch
      ["q1", "q2", "q3", "q4", "q5", "q6", "q7", "q8", "q9", "q10",
        "q11", "q12", "q13"] [] []).2 (by decide) (by decide) (by decide)
      3 7 (by decide) (by decide)
